import Mathlib

/-!
Shallow embedding of the mitr-api device-tracking service (src/server.js and
src/coordinate.js), together with theorems settling the specification claims.

Time instants are modelled as integers (milliseconds since the epoch, the
value of `Date.now()`).  JSON numbers that reach a numeric comparison are
modelled as rationals; a JSON field that may be absent or `null` is modelled
by the inductive `JsVal`.  The in-memory `Map` `deviceStates` is modelled as
an association list with unique keys maintained by `setState`.
-/

/-- Value of a JSON field as seen by the submission handler: absent
(`undefined` in JS), `null`, or a number. -/
inductive JsVal where
  | undef
  | null
  | num (q : ℚ)
deriving DecidableEq, Repr

/-- Entry of the `deviceStates` map (server.js line 85): `triggered`,
`expires` (ms timestamp), `lastActive` (ms timestamp of the stored `Date`). -/
structure DeviceState where
  triggered : Bool
  expires : Int
  lastActive : Int
deriving DecidableEq, Repr

/-- The in-memory `deviceStates` table: an association list from device id to
state, keys unique (JS `Map` semantics). -/
abbrev DeviceStates := List (String × DeviceState)

/-- Lookup in the table: `deviceStates.get(deviceId)`. -/
def getState (m : DeviceStates) (id : String) : Option DeviceState :=
  (List.find? (fun p => p.1 == id) m).map Prod.snd

/-- Write to the table: `deviceStates.set(deviceId, s)`.  Any previous entry
for the key is replaced. -/
def setState (m : DeviceStates) (id : String) (s : DeviceState) : DeviceStates :=
  (id, s) :: List.filter (fun p => p.1 != id) m

/-- The activation window constant used by the trigger handler
(server.js line 87): `Date.now() + 30000000`. -/
def triggerWindow : Int := 30000000

/-- Per-entry activity check of the status handler (server.js line 185):
`deviceState.triggered && deviceState.expires > Date.now()`. -/
def isActiveCheck (s : DeviceState) (now : Int) : Bool :=
  s.triggered && decide (s.expires > now)

/-- Activity check of the status handler applied to the table: false for a
missing entry (the unknown-device branch reports inactive). -/
def isActive (m : DeviceStates) (id : String) (now : Int) : Bool :=
  match getState m id with
  | none => false
  | some s => isActiveCheck s now

/-- Per-request inactivity test of the submission and listing handlers
(server.js lines 133 and 212):
`!deviceState?.triggered || deviceState.expires < Date.now()`. -/
def notActiveCheck (s? : Option DeviceState) (now : Int) : Bool :=
  match s? with
  | none => true
  | some s => !s.triggered || decide (s.expires < now)

/-- Activity check performed by the submission handler (the spec calls this
`TouchAndCheck`): the negation of the guard that returns 403. -/
def touchAndCheck (m : DeviceStates) (id : String) (now : Int) : Bool :=
  !(notActiveCheck (getState m id) now)

/-- Response body of `GET /api/device/status/:deviceId`.  Fields that the
handler omits from the JSON object in one of its branches are `Option`s. -/
structure StatusBody where
  triggered : Bool
  expiresIn : Option Int
  lastActive : Option Int
  code : String
  message : Option String
deriving DecidableEq, Repr

/-- The status handler (server.js lines 172-199).  Unknown device: the
`{triggered:false, message, code:'DEVICE_INACTIVE'}` branch, with no
`expiresIn` or `lastActive` field.  Known device: `triggered` is the activity
check, `expiresIn` is remaining time when active else 0, `lastActive` is the
stored timestamp, `code` is `DEVICE_ACTIVE` or `DEVICE_EXPIRED`. -/
def statusHandler (m : DeviceStates) (id : String) (now : Int) : StatusBody :=
  match getState m id with
  | none =>
      { triggered := false
        expiresIn := none
        lastActive := none
        code := "DEVICE_INACTIVE"
        message := some "Device not triggered" }
  | some s =>
      let a := isActiveCheck s now
      { triggered := a
        expiresIn := some (if a then s.expires - now else 0)
        lastActive := some s.lastActive
        code := if a then "DEVICE_ACTIVE" else "DEVICE_EXPIRED"
        message := none }

/-- Result of `POST /api/device/trigger`. -/
inductive TriggerResult where
  | deviceIdRequired
  | ok (expiresIn : Int)
deriving DecidableEq, Repr

/-- The trigger handler (server.js lines 73-104): reject a falsy device id,
otherwise overwrite the entry with `triggered=true`,
`expires = now + 30000000`, `lastActive = now`. -/
def triggerHandler (m : DeviceStates) (deviceId : String) (now : Int) :
    TriggerResult × DeviceStates :=
  if deviceId = "" then
    (.deviceIdRequired, m)
  else
    (.ok triggerWindow,
      setState m deviceId { triggered := true, expires := now + triggerWindow, lastActive := now })

/-- A persisted coordinate document (src/coordinate.js schema fields as
supplied by the submission handler). -/
structure CoordinateRecord where
  latitude : JsVal
  longitude : JsVal
  deviceId : String
  timestamp : Int
deriving DecidableEq, Repr

/-- Result of `POST /api/device/data`. -/
inductive SubmitResult where
  | invalidInput
  | invalidCoordinates
  | deviceNotActive
  | created (remainingTime : Int)
  | databaseError
deriving DecidableEq, Repr

/-- JS `Math.abs(v) > bound` for the values a coordinate field can hold:
`Math.abs(undefined)` is `NaN` and every `NaN` comparison is false;
`Math.abs(null)` is `0`; a number compares by absolute value. -/
def absGt (v : JsVal) (bound : ℚ) : Bool :=
  match v with
  | .undef => false
  | .null => decide ((0 : ℚ) > bound)
  | .num q => decide (|q| > bound)

/-- The submission handler (server.js lines 111-165).  `saveOk` models
whether the awaited store write succeeds; when it throws, the catch branch
answers `DATABASE_ERROR` (500).  Returns the result together with the tracker
table and the store after the call.  The `lastActive` mutation (line 142)
happens before the store write is attempted. -/
def dataHandler (m : DeviceStates) (store : List CoordinateRecord)
    (deviceId : String) (latitude longitude : JsVal) (now : Int) (saveOk : Bool) :
    SubmitResult × DeviceStates × List CoordinateRecord :=
  if deviceId = "" ∨ latitude = .undef ∨ longitude = .undef then
    (.invalidInput, m, store)
  else if absGt latitude 90 || absGt longitude 180 then
    (.invalidCoordinates, m, store)
  else if notActiveCheck (getState m deviceId) now then
    (.deviceNotActive, m, store)
  else
    match getState m deviceId with
    | none => (.deviceNotActive, m, store)
    | some s =>
        let m' := setState m deviceId { s with lastActive := now }
        if saveOk then
          (.created (s.expires - now), m',
            { latitude := latitude, longitude := longitude,
              deviceId := deviceId, timestamp := now } :: store)
        else
          (.databaseError, m', store)

/-- The periodic sweep (server.js lines 248-262): delete every entry with
`expires < now`, counting deletions.  Returns the table afterwards and the
count. -/
def sweep (m : DeviceStates) (now : Int) : DeviceStates × Nat :=
  (List.filter (fun p => !decide (p.2.expires < now)) m,
   (List.filter (fun p => decide (p.2.expires < now)) m).length)

/-- Character-list test: does `l` start with `sub`?  (JS `String.startsWith`
restricted to the characters.) -/
def leadsWith : List Char → List Char → Bool
  | [], _ => true
  | _ :: _, [] => false
  | a :: as, b :: bs => a == b && leadsWith as bs

/-- Character-list test: does `sub` occur contiguously inside `l`?
(JS `String.includes`.) -/
def hasSub (sub : List Char) : List Char → Bool
  | [] => decide (sub = [])
  | c :: rest => leadsWith sub (c :: rest) || hasSub sub rest

/-- The API-key middleware guard (server.js line 30):
`req.path.startsWith('/api') && !req.path.includes('/status')`. -/
def requiresApiKey (path : String) : Bool :=
  leadsWith "/api".data path.data && !(hasSub "/status".data path.data)

/-- The API-key middleware (server.js lines 28-37): when the guard holds and
the provided `x-api-key` header differs from the configured key, answer 401;
otherwise fall through to the route handler (`none`). -/
def apiKeyMiddleware (path : String) (providedKey : Option String) (actualKey : String) :
    Option Nat :=
  if requiresApiKey path then
    if providedKey ≠ some actualKey then some 401 else none
  else none

/-- Path of the listing route `GET /api/device/data/:deviceId` for a given
device id. -/
def listingPath (deviceId : String) : String :=
  "/api/device/data/" ++ deviceId

/-! Helper lemmas about the table and the string scans. -/

theorem getState_setState_self (m : DeviceStates) (id : String) (s : DeviceState) :
    getState (setState m id s) id = some s := by
  simp [getState, setState, List.find?]

theorem getState_mem (m : DeviceStates) (id : String) (s : DeviceState)
    (h : getState m id = some s) : (id, s) ∈ m := by
  unfold getState at h
  rw [Option.map_eq_some'] at h
  obtain ⟨p, hp, hps⟩ := h
  have hmem := List.mem_of_find?_eq_some hp
  have hkey := List.find?_some hp
  simp at hkey
  have : p = (id, s) := by
    cases p
    simp_all
  rw [this] at hmem
  exact hmem

theorem keys_unique (m : DeviceStates) (hnd : (m.map Prod.fst).Nodup)
    {id : String} {a b : DeviceState} (ha : (id, a) ∈ m) (hb : (id, b) ∈ m) : a = b := by
  induction m with
  | nil => simp at ha
  | cons p t ih =>
    simp at hnd
    rcases List.mem_cons.mp ha with ha1 | ha2 <;> rcases List.mem_cons.mp hb with hb1 | hb2
    · rw [← ha1] at hb1
      exact congrArg Prod.snd hb1.symm
    · exfalso
      have hp1 : p.1 = id := by rw [← ha1]
      exact hnd.1 b (by rw [hp1]; exact hb2)
    · exfalso
      have hp1 : p.1 = id := by rw [← hb1]
      exact hnd.1 a (by rw [hp1]; exact ha2)
    · exact ih hnd.2 ha2 hb2

theorem getState_sweep_expired (m : DeviceStates) (id : String) (s : DeviceState) (now : Int)
    (hnd : (m.map Prod.fst).Nodup) (h : getState m id = some s) (he : s.expires < now) :
    getState ((sweep m now).1) id = none := by
  have hmem := getState_mem m id s h
  unfold getState sweep
  rw [Option.map_eq_none']
  rw [List.find?_eq_none]
  intro x hx hbeq
  simp at hbeq
  rw [List.mem_filter] at hx
  obtain ⟨hxm, hxp⟩ := hx
  simp at hxp
  have hx1 : x = (id, x.2) := by
    cases x; simp_all
  rw [hx1] at hxm
  have hxs := keys_unique m hnd hxm hmem
  rw [hxs] at hxp
  omega

theorem length_filter_split (p : String × DeviceState → Bool) (l : DeviceStates) :
    (List.filter p l).length + (List.filter (fun a => !p a) l).length = l.length := by
  induction l with
  | nil => rfl
  | cons a t ih =>
    by_cases h : p a <;> simp [List.filter_cons, h] <;> omega

theorem leadsWith_append_self (sub r : List Char) : leadsWith sub (sub ++ r) = true := by
  induction sub with
  | nil => rfl
  | cons a as ih => simp [leadsWith, ih]

theorem hasSub_of_leadsWith (sub l : List Char) (h : leadsWith sub l = true) :
    hasSub sub l = true := by
  cases l with
  | nil =>
    cases sub with
    | nil => rfl
    | cons a as => simp [leadsWith] at h
  | cons c rest => simp [hasSub, h]

theorem hasSub_append_left (sub l₁ l₂ : List Char) (h : hasSub sub l₂ = true) :
    hasSub sub (l₁ ++ l₂) = true := by
  induction l₁ with
  | nil => simpa using h
  | cons c cs ih => simp [hasSub, ih]

theorem leadsWith_eq_append (sub : List Char) :
    ∀ l : List Char, leadsWith sub l = true → ∃ r, l = sub ++ r := by
  induction sub with
  | nil => exact fun l _ => ⟨l, rfl⟩
  | cons a as ih =>
    intro l h
    cases l with
    | nil => simp [leadsWith] at h
    | cons b bs =>
      simp [leadsWith] at h
      obtain ⟨r, hr⟩ := ih bs h.2
      exact ⟨r, by simp [h.1, hr]⟩

theorem hasSub_of_cons (c : Char) (sub : List Char) :
    ∀ l : List Char, hasSub (c :: sub) l = true → hasSub sub l = true := by
  intro l
  induction l with
  | nil => intro h; simp [hasSub] at h
  | cons x rest ih =>
    intro h
    simp [hasSub] at h ⊢
    rcases h with h | h
    · simp [leadsWith] at h
      exact Or.inr (by simpa using hasSub_of_leadsWith sub rest h.2)
    · exact Or.inr (ih h)

theorem hasSub_listing (d : String) :
    hasSub "/status".data (listingPath d).data =
      (leadsWith "status".data d.data || hasSub "/status".data d.data) := by
  have h : (listingPath d).data =
      '/' :: 'a' :: 'p' :: 'i' :: '/' :: 'd' :: 'e' :: 'v' :: 'i' :: 'c' :: 'e' :: '/' :: 'd' :: 'a' :: 't' :: 'a' :: '/' :: d.data := rfl
  rw [h]
  simp [hasSub, leadsWith]

theorem leadsWith_api_listing (d : String) :
    leadsWith "/api".data (listingPath d).data = true := by
  have h : (listingPath d).data =
      '/' :: 'a' :: 'p' :: 'i' :: '/' :: 'd' :: 'e' :: 'v' :: 'i' :: 'c' :: 'e' :: '/' :: 'd' :: 'a' :: 't' :: 'a' :: '/' :: d.data := rfl
  rw [h]
  simp [leadsWith]

/-! Claim theorems. -/

/-- C4: after activation at time `t0`, the status-handler activity check
(`IsActive`) is true at every instant strictly before `t0 + W` and false at
every instant at or after `t0 + W`, where `W` is the trigger window. -/
theorem claim_c4_window (m : DeviceStates) (d : String) (t0 t : Int) (hd : d ≠ "") :
    (t < t0 + triggerWindow → isActive ((triggerHandler m d t0).2) d t = true) ∧
    (t0 + triggerWindow ≤ t → isActive ((triggerHandler m d t0).2) d t = false) := by
  have hm : getState ((triggerHandler m d t0).2) d =
      some { triggered := true, expires := t0 + triggerWindow, lastActive := t0 } := by
    simp only [triggerHandler, if_neg hd]
    exact getState_setState_self m d _
  constructor
  · intro h
    simp [isActive, hm, isActiveCheck, h]
  · intro h
    simp [isActive, hm, isActiveCheck]
    omega

theorem claim_c4_window_witness :
    isActive ((triggerHandler [] "d1" 0).2) "d1" 5 = true ∧
    isActive ((triggerHandler [] "d1" 0).2) "d1" 30000000 = false :=
  ⟨(claim_c4_window [] "d1" 0 5 (by decide)).1 (by decide),
   (claim_c4_window [] "d1" 0 30000000 (by decide)).2 (by decide)⟩

/-- C5: re-activating a device that already has an active entry overwrites
the entry: the new `expires` is exactly `t1 + W` and the new `lastActive` is
`t1`, independent of the previous entry's remaining time. -/
theorem claim_c5_overwrite (m : DeviceStates) (d : String) (s0 : DeviceState) (t1 : Int)
    (hd : d ≠ "") (_h0 : getState m d = some s0) (_hact : isActiveCheck s0 t1 = true) :
    getState ((triggerHandler m d t1).2) d =
      some { triggered := true, expires := t1 + triggerWindow, lastActive := t1 } := by
  simp only [triggerHandler, if_neg hd]
  exact getState_setState_self m d _

theorem claim_c5_overwrite_witness :
    getState ((triggerHandler [("d", ⟨true, 100, 0⟩)] "d" 50).2) "d" =
      some { triggered := true, expires := 50 + triggerWindow, lastActive := 50 } :=
  claim_c5_overwrite [("d", ⟨true, 100, 0⟩)] "d" ⟨true, 100, 0⟩ 50
    (by decide) (by rfl) (by decide)

/-- C6: a submission whose fields are present but whose latitude or longitude
is out of range is answered `InvalidCoordinates`, and neither the tracker
table nor the store changes, whatever the device's tracker state. -/
theorem claim_c6_coords (m : DeviceStates) (store : List CoordinateRecord) (d : String)
    (lat lon : JsVal) (now : Int) (saveOk : Bool)
    (hd : d ≠ "") (hlat : lat ≠ .undef) (hlon : lon ≠ .undef)
    (hrange : (absGt lat 90 || absGt lon 180) = true) :
    dataHandler m store d lat lon now saveOk = (.invalidCoordinates, m, store) := by
  have hv : ¬(d = "" ∨ lat = .undef ∨ lon = .undef) := by
    push_neg
    exact ⟨hd, hlat, hlon⟩
  unfold dataHandler
  rw [if_neg hv, if_pos hrange]

theorem claim_c6_coords_witness :
    dataHandler [] [] "d" (.num 91) (.num 0) 0 true = (.invalidCoordinates, [], []) :=
  claim_c6_coords [] [] "d" (.num 91) (.num 0) 0 true
    (by decide) (by decide) (by decide) (by decide)

/-- C7 counterexample: for a device with no tracker entry the status response
does not carry a remaining-time field equal to 0 — the field is absent
altogether in the unknown-device branch. -/
theorem claim_c7_counterexample :
    ¬((statusHandler [] "d" 0).triggered = false ∧
      (statusHandler [] "d" 0).expiresIn = some 0) := by
  decide

/-- C7 amended: for a device with no tracker entry the status response has
the active flag false and code `DEVICE_INACTIVE`, and omits the
remaining-time and last-active fields instead of reporting them as 0. -/
theorem claim_c7_unknown (m : DeviceStates) (id : String) (now : Int)
    (h : getState m id = none) :
    (statusHandler m id now).triggered = false ∧
    (statusHandler m id now).expiresIn = none ∧
    (statusHandler m id now).lastActive = none ∧
    (statusHandler m id now).code = "DEVICE_INACTIVE" := by
  simp [statusHandler, h]

theorem claim_c7_unknown_witness :
    (statusHandler [] "d" 0).triggered = false ∧
    (statusHandler [] "d" 0).expiresIn = none ∧
    (statusHandler [] "d" 0).lastActive = none ∧
    (statusHandler [] "d" 0).code = "DEVICE_INACTIVE" :=
  claim_c7_unknown [] "d" 0 rfl

/-- C8: sweeping at `now` keeps exactly the entries with `expires ≥ now`
(with all fields unchanged), the reported count is the number of entries with
`expires < now`, and kept plus removed accounts for the whole table. -/
theorem claim_c8_sweep (m : DeviceStates) (now : Int) (id : String) (s : DeviceState) :
    ((id, s) ∈ (sweep m now).1 ↔ ((id, s) ∈ m ∧ ¬(s.expires < now))) ∧
    (sweep m now).2 = List.countP (fun p => decide (p.2.expires < now)) m ∧
    m.length = (sweep m now).1.length + (sweep m now).2 := by
  refine ⟨?_, ?_, ?_⟩
  · simp [sweep, List.mem_filter]
  · simp [sweep, List.countP_eq_length_filter]
  · have h := length_filter_split (fun p => !decide (p.2.expires < now)) m
    simp only [sweep]
    simp only [Bool.not_not] at h
    omega

/-- C1 counterexample: on an entry with `triggered = true` and
`expires = 100`, at `now = 100` the submission-handler check answers true
while the status-handler check answers false. -/
theorem claim_c1_counterexample :
    touchAndCheck [("d", ⟨true, 100, 0⟩)] "d" 100 = true ∧
    isActive [("d", ⟨true, 100, 0⟩)] "d" 100 = false := by
  decide

/-- C1 amended: the submission-handler activity check and the status-handler
activity check agree at every tracker state and instant, except exactly when
the entry is triggered and `now` equals its `expires`: there the submission
check is true and the status check is false. -/
theorem claim_c1_checks (m : DeviceStates) (id : String) (now : Int) :
    touchAndCheck m id now = isActive m id now ∨
    (∃ s, getState m id = some s ∧ s.triggered = true ∧ s.expires = now ∧
      touchAndCheck m id now = true ∧ isActive m id now = false) := by
  cases h : getState m id with
  | none =>
    left
    simp [touchAndCheck, isActive, notActiveCheck, h]
  | some s =>
    by_cases ht : s.triggered = true
    · by_cases he : s.expires = now
      · right
        refine ⟨s, rfl, ht, he, ?_, ?_⟩
        · simp [touchAndCheck, notActiveCheck, h, ht, he]
        · simp [isActive, isActiveCheck, h, ht, he]
      · left
        simp only [touchAndCheck, isActive, notActiveCheck, isActiveCheck, h, ht,
          Bool.not_true, Bool.false_or, Bool.true_and]
        by_cases hlt : s.expires < now
        · have hgt : ¬(s.expires > now) := by omega
          simp [hlt, hgt]
        · have hgt : s.expires > now := by omega
          simp [hlt, hgt]
    · left
      simp [touchAndCheck, isActive, notActiveCheck, isActiveCheck, h, ht]

/-- C2 counterexample: with the expired entry `("d", triggered, expires 50)`
still present at `now = 100`, the status response differs from the response
after the sweep has removed it (`DEVICE_EXPIRED` versus `DEVICE_INACTIVE`). -/
theorem claim_c2_counterexample :
    (statusHandler [("d", ⟨true, 50, 10⟩)] "d" 100).code ≠
      (statusHandler ((sweep [("d", ⟨true, 50, 10⟩)] 100).1) "d" 100).code := by
  decide

/-- C2 amended: for an expired entry the active flag is false both before
and after the sweep removes it, but the responses are not field-for-field
identical: present-but-expired reports `expiresIn 0`, the stored
`lastActive`, and code `DEVICE_EXPIRED`, while after removal the response
omits `expiresIn` and `lastActive` and carries code `DEVICE_INACTIVE`. -/
theorem claim_c2_sweep_status (m : DeviceStates) (id : String) (now : Int) (s : DeviceState)
    (hnd : (m.map Prod.fst).Nodup) (h : getState m id = some s) (he : s.expires < now) :
    (statusHandler m id now).triggered = false ∧
    (statusHandler ((sweep m now).1) id now).triggered = false ∧
    (statusHandler m id now).expiresIn = some 0 ∧
    (statusHandler ((sweep m now).1) id now).expiresIn = none ∧
    (statusHandler m id now).lastActive = some s.lastActive ∧
    (statusHandler ((sweep m now).1) id now).lastActive = none ∧
    (statusHandler m id now).code = "DEVICE_EXPIRED" ∧
    (statusHandler ((sweep m now).1) id now).code = "DEVICE_INACTIVE" := by
  have hg := getState_sweep_expired m id s now hnd h he
  have hlt : ¬(now < s.expires) := by omega
  have hia : isActiveCheck s now = false := by
    simp [isActiveCheck, hlt]
  simp [statusHandler, h, hg, hia]

theorem claim_c2_sweep_status_witness :
    (statusHandler [("d", ⟨true, 50, 10⟩)] "d" 100).triggered = false ∧
    (statusHandler ((sweep [("d", ⟨true, 50, 10⟩)] 100).1) "d" 100).triggered = false ∧
    (statusHandler [("d", ⟨true, 50, 10⟩)] "d" 100).expiresIn = some 0 ∧
    (statusHandler ((sweep [("d", ⟨true, 50, 10⟩)] 100).1) "d" 100).expiresIn = none ∧
    (statusHandler [("d", ⟨true, 50, 10⟩)] "d" 100).lastActive = some (10 : Int) ∧
    (statusHandler ((sweep [("d", ⟨true, 50, 10⟩)] 100).1) "d" 100).lastActive = none ∧
    (statusHandler [("d", ⟨true, 50, 10⟩)] "d" 100).code = "DEVICE_EXPIRED" ∧
    (statusHandler ((sweep [("d", ⟨true, 50, 10⟩)] 100).1) "d" 100).code = "DEVICE_INACTIVE" :=
  claim_c2_sweep_status [("d", ⟨true, 50, 10⟩)] "d" 100 ⟨true, 50, 10⟩
    (by decide) rfl (by decide)

/-- C9: the submission handler answers `InvalidInput` exactly when the device
id is falsy (the empty string) or the latitude or longitude field is absent;
`0` and `null` coordinate values pass this check and reach range
validation. -/
theorem claim_c9_input (m : DeviceStates) (store : List CoordinateRecord) (d : String)
    (lat lon : JsVal) (now : Int) (saveOk : Bool) :
    (dataHandler m store d lat lon now saveOk).1 = .invalidInput ↔
      (d = "" ∨ lat = .undef ∨ lon = .undef) := by
  constructor
  · intro h
    by_contra hc
    unfold dataHandler at h
    rw [if_neg hc] at h
    split at h
    · simp at h
    · split at h
      · simp at h
      · split at h
        · simp at h
        · split at h <;> simp at h
  · intro h
    unfold dataHandler
    rw [if_pos h]

/-- C10: when a valid submission finds the device active, the tracker entry's
`lastActive` is set to `now` whether or not the store write succeeds (it is
updated before the write is attempted), `triggered` and `expires` are kept,
and a failed write yields `DATABASE_ERROR` with the store unchanged. -/
theorem claim_c10_atomicity (m : DeviceStates) (store : List CoordinateRecord) (d : String)
    (lat lon : JsVal) (now : Int) (saveOk : Bool) (s : DeviceState)
    (hd : d ≠ "") (hlat : lat ≠ .undef) (hlon : lon ≠ .undef)
    (hr1 : absGt lat 90 = false) (hr2 : absGt lon 180 = false)
    (hs : getState m d = some s) (ht : s.triggered = true) (he : ¬(s.expires < now)) :
    getState (dataHandler m store d lat lon now saveOk).2.1 d =
      some { triggered := s.triggered, expires := s.expires, lastActive := now } ∧
    (saveOk = false →
      (dataHandler m store d lat lon now saveOk).1 = .databaseError ∧
      (dataHandler m store d lat lon now saveOk).2.2 = store) := by
  have hv : ¬(d = "" ∨ lat = .undef ∨ lon = .undef) := by
    push_neg
    exact ⟨hd, hlat, hlon⟩
  have hna : notActiveCheck (some s) now = false := by
    simp [notActiveCheck, ht, he]
  cases saveOk <;>
    simp [dataHandler, hv, hr1, hr2, hs, hna, getState_setState_self]

theorem claim_c10_atomicity_witness :
    getState (dataHandler [("d", ⟨true, 100, 0⟩)] [] "d" (.num 1) (.num 2) 50 false).2.1 "d" =
      some { triggered := true, expires := 100, lastActive := 50 } ∧
    (false = false →
      (dataHandler [("d", ⟨true, 100, 0⟩)] [] "d" (.num 1) (.num 2) 50 false).1 = .databaseError ∧
      (dataHandler [("d", ⟨true, 100, 0⟩)] [] "d" (.num 1) (.num 2) 50 false).2.2 = []) :=
  claim_c10_atomicity [("d", ⟨true, 100, 0⟩)] [] "d" (.num 1) (.num 2) 50 false ⟨true, 100, 0⟩
    (by decide) (by decide) (by decide) (by decide) (by decide) (by rfl) (by decide) (by decide)

/-- C3: the middleware skips the shared-secret check for every path that
contains '/status' anywhere; hence the listing route for a device id
beginning with "status" passes the middleware with no key at all, while for
a device id not containing "status" a key mismatch is answered 401. -/
theorem claim_c3_middleware (path d : String) (pk : Option String) (ak : String) :
    (hasSub "/status".data path.data = true → apiKeyMiddleware path pk ak = none) ∧
    (leadsWith "status".data d.data = true →
      apiKeyMiddleware (listingPath d) pk ak = none) ∧
    (hasSub "status".data d.data = false → pk ≠ some ak →
      apiKeyMiddleware (listingPath d) pk ak = some 401) := by
  refine ⟨?_, ?_, ?_⟩
  · intro h
    simp [apiKeyMiddleware, requiresApiKey, h]
  · intro h
    have hx := hasSub_listing d
    simp [apiKeyMiddleware, requiresApiKey, hx, h]
  · intro h hk
    have h1 : leadsWith "status".data d.data = false := by
      by_contra hc
      rw [Bool.not_eq_false] at hc
      rw [hasSub_of_leadsWith _ _ hc] at h
      simp at h
    have h2 : hasSub "/status".data d.data = false := by
      by_contra hc
      rw [Bool.not_eq_false] at hc
      have hc2 := hasSub_of_cons '/' "status".data d.data hc
      rw [hc2] at h
      simp at h
    have hreq : requiresApiKey (listingPath d) = true := by
      unfold requiresApiKey
      rw [leadsWith_api_listing d, hasSub_listing d, h1, h2]
      rfl
    simp [apiKeyMiddleware, hreq, hk]

theorem claim_c3_middleware_witness :
    apiKeyMiddleware "/api/device/status/x" none "k" = none ∧
    apiKeyMiddleware (listingPath "status7") none "k" = none ∧
    apiKeyMiddleware (listingPath "alpha") none "k" = some 401 :=
  ⟨(claim_c3_middleware "/api/device/status/x" "status7" none "k").1 (by decide),
   (claim_c3_middleware "/api/device/status/x" "status7" none "k").2.1 (by decide),
   (claim_c3_middleware "/api/device/status/x" "alpha" none "k").2.2 (by decide) (by decide)⟩
